import Mathlib

/-!
Verification of the MKR-5 / DART pump-controller core (repository
`master_fuel`) against its natural-language specification.

The embedding below is a shallow translation of `src/app/pumpmaster.py`,
`src/app/mekser/driver.py`, `src/app/mekser/config_ext.py`,
`src/app/enums.py` and `src/app/state.py` into Lean.

A peculiarity of the source: `src/app/pumpmaster.py` contains unresolved
git merge-conflict markers, so two revisions of several functions coexist
in the file: the `HEAD` revision and the `c5b88ff` revision (named after
the commit hash in the conflict marker).  Definitions below that exist in
both revisions carry a `_head` or `_c5b` suffix; definitions outside the
conflicted regions (`crc16`, `_bcd_to_int`, `_int_to_bcd`, the driver,
the state store) are shared.

Machine bytes are modelled as `Nat` (every operation in the source either
masks its result or is applied to values below 256); Python floats are
modelled as the rationals they denote (`ℚ`), with `int()` truncation
modelled by `pyInt`; mutable dicts are modelled as association lists or
as `Nat → Option _` maps; a raised exception is modelled by the
`Option PyErr` component of a handler's result, the state component
keeping the mutations performed before the raise (Python semantics).
-/

set_option maxRecDepth 100000

namespace MasterFuel

/-- Python `int(q)` for a rational: truncation toward zero. -/
def pyInt (q : ℚ) : Int := if q < 0 then -((-q).floor) else q.floor

/-- Big-endian `n.to_bytes(k, "big")` (defined for the in-range values the
source applies it to). -/
def to_bytes_be : Nat → Nat → List Nat
  | _, 0 => []
  | v, k + 1 => to_bytes_be (v / 256) k ++ [v % 256]

/-! ### CRC (driver.py `crc16`, pumpmaster.py `crc16_mkr`)

`config_ext.DriverCfg` has `crc_init = 0x0000`, `crc_poly = 0x1021`, so
`driver.crc16` and `pumpmaster.crc16_mkr` compute the same function; it is
embedded once. -/

def CRC_POLY : Nat := 0x1021

def CRC_INIT : Nat := 0x0000

/-- One shift step of the inner `for _ in range(8)` loop of `crc16`. -/
def crcRound (crc : Nat) : Nat :=
  if crc &&& 0x8000 ≠ 0 then ((crc <<< 1) ^^^ CRC_POLY) &&& 0xFFFF
  else (crc <<< 1) &&& 0xFFFF

/-- Processing of one byte by `crc16`: `crc ^= b << 8` then 8 shift steps. -/
def crcByte (crc b : Nat) : Nat := crcRound^[8] (crc ^^^ (b <<< 8))

/-- `driver.crc16` / `pumpmaster.crc16_mkr`: CRC-16/CCITT, poly 0x1021,
init 0x0000, no reflection, no final XOR. -/
def crc16 (data : List Nat) : Nat := data.foldl crcByte CRC_INIT

/-! ### Packed-BCD codecs (pumpmaster.py module level and HEAD methods) -/

/-- `pumpmaster._bcd_to_int`: fold `v = v*100 + hi*10 + lo` over the bytes. -/
def _bcd_to_int (b : List Nat) : Nat :=
  b.foldl (fun v byte => v * 100 + ((byte >>> 4) &&& 0xF) * 10 + (byte &&& 0xF)) 0

/-- `pumpmaster._int_to_bcd`: the loop fills `out[i]` for `i` from
`nbytes-1` down to `0` with `((val // 10) % 10) | ((val % 10) << 4)`,
dividing `val` by 100 each step (note: units digit in the high nibble). -/
def _int_to_bcd : Nat → Nat → List Nat
  | _, 0 => []
  | val, n + 1 => _int_to_bcd (val / 100) n ++ [((val / 10) % 10) ||| ((val % 10) <<< 4)]

/-- Accumulator loop of the HEAD method `PumpMaster._bcd_to_float`:
returns 0 as soon as an invalid nibble (> 9) is seen. -/
def bcdFloatGo : Nat → List Nat → ℚ
  | acc, [] => (acc : ℚ)
  | acc, byte :: rest =>
    let hi := (byte >>> 4) &&& 0xF
    let lo := byte &&& 0xF
    if 9 < hi ∨ 9 < lo then 0
    else bcdFloatGo (acc * 100 + hi * 10 + lo) rest

/-- HEAD `PumpMaster._bcd_to_float`. -/
def _bcd_to_float (b : List Nat) : ℚ := bcdFloatGo 0 b

/-- Loop of the HEAD method `PumpMaster._float_to_bcd`, after `int()`:
peels two decimal digits per byte, low digit into the low nibble and the
next digit into the high nibble, least-significant byte produced first and
the list reversed (hence MSB first). -/
def floatBcdGo : Nat → Nat → List Nat
  | _, 0 => []
  | int_val, k + 1 =>
    let low := int_val % 10
    let v1 := int_val / 10
    let high := v1 % 10
    floatBcdGo (v1 / 10) k ++ [(high <<< 4) ||| low]

/-- HEAD `PumpMaster._float_to_bcd` (the callers pass non-negative values;
`int(value)` is `pyInt`). -/
def _float_to_bcd (value : ℚ) (bytes_count : Nat) : List Nat :=
  floatBcdGo (pyInt value).toNat bytes_count

example : _int_to_bcd 4500 3 = [0x00, 0x54, 0x00] := by decide
example : _bcd_to_int [0x12, 0x34] = 1234 := by decide
example : _float_to_bcd 20000 4 = [0x00, 0x02, 0x00, 0x00] := by decide

/-! ### Frame construction (driver.py `DartDriver._build_frame`) -/

/-- `DartDriver._build_frame addr blocks` with the driver's current
sequence bit passed explicitly:
`STX ++ [addr, 0xF0, seq, len(body)] ++ body ++ crc_le ++ [ETX, SF]`,
the CRC over `[addr, 0xF0, seq, len(body)] ++ body` stored low byte first. -/
def _build_frame (addr seq : Nat) (blocks : List (List Nat)) : List Nat :=
  let body := blocks.flatten
  let hdr := [addr, 0xF0, seq, body.length] ++ body
  let crc := crc16 hdr
  [0x02] ++ hdr ++ [crc % 256, crc / 256] ++ [0x03, 0xFA]

/-! ### Frame recognition (pumpmaster.py `_parse`, c5b88ff revision) -/

/-- Python `buf.split(b"\x02")`: split on every separator byte, keeping
empty chunks (`pySplit sep l` always returns at least one chunk). -/
def pySplit (sep : Nat) : List Nat → List (List Nat)
  | [] => [[]]
  | b :: rest =>
    if b = sep then [] :: pySplit sep rest
    else
      match pySplit sep rest with
      | chunk :: more => (b :: chunk) :: more
      | [] => [[b]]

/-- The `while len(body) >= 2` transaction loop shared by both `_parse`
revisions, with explicit fuel (each iteration consumes at least two body
bytes, so `body.length` steps always suffice). -/
def splitTransGo : Nat → List Nat → List (Nat × List Nat)
  | 0, _ => []
  | fuel + 1, dc :: ln :: rest =>
    if rest.length < ln then []
    else (dc, rest.take ln) :: splitTransGo fuel (rest.drop ln)
  | _ + 1, _ => []

/-- The `while len(body) >= 2` transaction loop shared by both `_parse`
revisions: pull `dc, ln, payload[ln]` blocks, stopping at an incomplete
tail. -/
def split_transactions (body : List Nat) : List (Nat × List Nat) :=
  splitTransGo body.length body

/-- Body of the `for chunk in buf.split(b"\x02")` loop of the c5b88ff
`_parse`: empty chunks are skipped; `fr = b"\x02" + chunk` must be at
least 8 bytes, end in 0xFA and have `crc16_mkr(fr[1:-4])` equal to the
little-endian integer at `fr[-4:-2]`; then `addr = fr[1]`,
`length = fr[4]`, `body = fr[5:5+length]` and the transaction loop runs.
The result lists the `(addr, dc, payload)` triples passed to
`_handle_dc`, in order. -/
def parseChunk (chunk : List Nat) : List (Nat × Nat × List Nat) :=
  match chunk with
  | [] => []
  | _ :: _ =>
    let fr := 0x02 :: chunk
    let n := fr.length
    if n < 8 then []
    else if fr.getLastD 0 ≠ 0xFA then []
    else if crc16 ((fr.drop 1).take (n - 5)) ≠ fr.getD (n - 4) 0 + 256 * fr.getD (n - 3) 0 then []
    else
      let addr := fr.getD 1 0
      let length := fr.getD 4 0
      let body := (fr.drop 5).take length
      (split_transactions body).map (fun t => (addr, t))

/-- c5b88ff revision of `PumpMaster._parse`, as the list of
`(addr, dc, payload)` dispatches it performs on a received buffer. -/
def _parse (buf : List Nat) : List (Nat × Nat × List Nat) :=
  ((pySplit 0x02 buf).map parseChunk).flatten

example :
    _build_frame 0x50 0x00 [[0x01, 0x01, 0x00]] =
      [0x02, 0x50, 0xF0, 0x00, 0x03, 0x01, 0x01, 0x00, 0xF6, 0xE4, 0x03, 0xFA] := by decide

example :
    _parse [0x02, 0x50, 0xF0, 0x00, 0x03, 0x01, 0x01, 0x00, 0xF6, 0xE4, 0x03, 0xFA] =
      [(0x50, 0x01, [0x00])] := by decide

/-! ### Data model (enums.py, state.py) -/

/-- `enums.PumpStatus` (an `IntEnum`; `FILLING_SUSPENDED` is a Python
alias of `FILLING` — both have value 4 — so the member set is the eight
constructors below). -/
inductive PumpStatus
  | PUMP_NOT_PROGRAMMED
  | RESET
  | AUTHORIZED
  | AUTHORIZED_SUSPENDED
  | FILLING
  | FILLING_COMPLETED
  | MAX_REACHED
  | SWITCHED_OFF
  deriving DecidableEq, Repr

/-- The `PumpStatus(code)` constructor call: `some` member for the codes
0..7 in `PumpStatus._value2member_map_`, `none` (a raised `ValueError`)
otherwise. -/
def PumpStatus.ofCode : Nat → Option PumpStatus
  | 0x00 => some .PUMP_NOT_PROGRAMMED
  | 0x01 => some .RESET
  | 0x02 => some .AUTHORIZED
  | 0x03 => some .AUTHORIZED_SUSPENDED
  | 0x04 => some .FILLING
  | 0x05 => some .FILLING_COMPLETED
  | 0x06 => some .MAX_REACHED
  | 0x07 => some .SWITCHED_OFF
  | _ => none

/-- `state.NozzleState`. -/
structure NozzleState where
  number : Nat := 0
  taken : Bool := false
  selected : Bool := false
  price : ℚ := 0
  deriving DecidableEq, Repr

/-- `state.SideState`; Python dict fields are association lists. -/
structure SideState where
  nozzle_taken : Bool := false
  status : PumpStatus := .PUMP_NOT_PROGRAMMED
  volume_l : ℚ := 0
  amount_cur : ℚ := 0
  preset_vol : Option ℚ := none
  preset_amt : Option ℚ := none
  nozzles : List (Nat × NozzleState) := []
  selected_nozzle : Option Nat := none
  deriving DecidableEq, Repr

/-- `state.PumpState`. -/
structure PumpState where
  left : SideState := {}
  right : SideState := {}
  all_nozzles : List (Nat × NozzleState) := []
  deriving DecidableEq, Repr

/-- Python dict lookup `d.get(k)` on an association list. -/
def dictGet (d : List (Nat × α)) (k : Nat) : Option α :=
  (d.find? (fun kv => kv.1 == k)).map (fun kv => kv.2)

/-- Python dict assignment `d[k] = v` on an association list: overwrite in
place if the key is present, append otherwise. -/
def dictSet (d : List (Nat × α)) (k : Nat) (v : α) : List (Nat × α) :=
  if (d.find? (fun kv => kv.1 == k)).isSome
  then d.map (fun kv => if kv.1 = k then (k, v) else kv)
  else d ++ [(k, v)]

/-- One `defaultdict(PumpState)` read `store[addr]` (state.py `store`):
returns the entry, inserting a fresh default `PumpState` when absent. -/
def storeGetItem (s : Nat → Option PumpState) (addr : Nat) :
    PumpState × (Nat → Option PumpState) :=
  match s addr with
  | some p => (p, s)
  | none => ({}, fun b => if b = addr then some ({} : PumpState) else s b)

/-- The side strings used by the handlers. -/
inductive Side
  | left
  | right
  deriving DecidableEq, Repr

/-- `pumpmaster.SIDE_BY_NOZ.get(noz_id, "left")`: the dict
`{1: left, 2: right, 3: left, 4: right}` with default `left`. -/
def SIDE_BY_NOZ : Nat → Side
  | 1 => .left
  | 2 => .right
  | 3 => .left
  | 4 => .right
  | _ => .left

/-- An event dict put on `PumpMaster.events`; absent keys are `none`
(the two `_handle_dc` revisions use different key sets). -/
structure Event where
  addr : Nat
  side : Option Side := none
  status : Option Nat := none
  nozzle_id : Option Nat := none
  grade : Option (Option Nat) := none
  price_cur : Option ℚ := none
  nozzle_taken : Option Bool := none
  volume_l : Option ℚ := none
  amount_cur : Option ℚ := none
  nozzle_num : Option Nat := none
  nozzle_price : Option ℚ := none
  nozzle_selected : Option Bool := none
  deriving DecidableEq, Repr

/-- A raised Python exception. -/
inductive PyErr
  | valueError
  deriving DecidableEq, Repr

/-- The mutable state a `PumpMaster` instance owns: the global `store`
from state.py, `self.grade_table` and the event queue `self.events`. -/
structure MasterState where
  storeF : Nat → Option PumpState
  grade_table : Nat → Option (List (Nat × Nat))
  events : List Event

/-! ### DC dispatch (pumpmaster.py `_handle_dc`, both revisions)

A handler returns the new `MasterState` and `some err` when the Python
code would raise; mutations performed before the raise are kept, as in
Python. -/

/-- c5b88ff revision of `PumpMaster._handle_dc`: DC7 (≥ 46 bytes) fills
`grade_table[addr]` from offsets 30..44; DC3 (≥ 4 bytes) emits a nozzle
event; DC2 (≥ 9 bytes) emits a volume/amount event, the side taken from
bit 0 of the first payload byte; DC1 (non-empty) sets both sides' status
to `PumpStatus(code)` (raising `ValueError` on unknown codes) and emits a
status event. -/
def _handle_dc_c5b (st : MasterState) (addr dc : Nat) (pl : List Nat) :
    MasterState × Option PyErr :=
  let p := (storeGetItem st.storeF addr).1
  let store1 := (storeGetItem st.storeF addr).2
  let st1 : MasterState := { st with storeF := store1 }
  if dc = 0x07 ∧ 46 ≤ pl.length then
    let table := (List.range 15).map (fun i => (i + 1, pl.getD (30 + i) 0))
    ({ st1 with grade_table := fun b => if b = addr then some table else st1.grade_table b },
     none)
  else if dc = 0x03 ∧ 4 ≤ pl.length then
    let price : ℚ := (_bcd_to_int (pl.take 3) : ℚ) / 100
    let noz := pl.getD 3 0
    let noz_id := noz &&& 0x0F
    let taken := noz &&& 0x10 ≠ 0
    let side := SIDE_BY_NOZ noz_id
    let grade := match st1.grade_table addr with
      | some t => dictGet t noz_id
      | none => none
    ({ st1 with events := st1.events ++
        [{ addr := addr, nozzle_id := some noz_id, side := some side, grade := some grade,
           price_cur := some price, nozzle_taken := some taken }] }, none)
  else if dc = 0x02 ∧ 9 ≤ pl.length then
    let side := if pl.getD 0 0 &&& 0x01 ≠ 0 then Side.right else Side.left
    let vol : ℚ := (_bcd_to_int ((pl.drop 1).take 4) : ℚ) / 1000
    let amt : ℚ := (_bcd_to_int ((pl.drop 5).take 4) : ℚ) / 100
    ({ st1 with events := st1.events ++
        [{ addr := addr, side := some side, volume_l := some vol, amount_cur := some amt }] },
     none)
  else if dc = 0x01 ∧ pl ≠ [] then
    match PumpStatus.ofCode (pl.getD 0 0) with
    | none => (st1, some .valueError)
    | some s =>
      let p2 := { p with left := { p.left with status := s },
                         right := { p.right with status := s } }
      ({ st1 with storeF := fun b => if b = addr then some p2 else store1 b,
                  events := st1.events ++ [{ addr := addr, status := some (pl.getD 0 0) }] },
       none)
  else (st1, none)

/-- HEAD revision of the DC7 grade loop: for each `(nozzle_num, grade)`
in `enumerate(grade_data, 1)` with `grade > 0`, insert a default
`NozzleState(number=nozzle_num)` when absent and set its `number`. -/
def headDc7Update (noz : List (Nat × NozzleState)) (grades : List Nat) :
    List (Nat × NozzleState) :=
  (grades.enumFrom 1).foldl
    (fun acc ng =>
      if 0 < ng.2 then
        let cur := (dictGet acc ng.1).getD { number := ng.1 }
        dictSet acc ng.1 { cur with number := ng.1 }
      else acc)
    noz

/-- HEAD revision of `PumpMaster._handle_dc`: DC1 maps unknown codes to
`PUMP_NOT_PROGRAMMED` on the left side and emits the raw code; DC2
(≥ 8 bytes) writes volume/amount to the left side; DC3 (≥ 4 bytes)
updates `all_nozzles` and the left side; DC7 (≥ 50 bytes) reads the grade
bytes from offsets 35..49 into `all_nozzles`. -/
def _handle_dc_head (st : MasterState) (adr dc : Nat) (pl : List Nat) :
    MasterState × Option PyErr :=
  let p := (storeGetItem st.storeF adr).1
  let store1 := (storeGetItem st.storeF adr).2
  let putAt := fun (p2 : PumpState) (st1 : MasterState) =>
    { st1 with storeF := fun b => if b = adr then some p2 else store1 b }
  let st1 : MasterState := { st with storeF := store1 }
  if dc = 0x01 then
    let code := pl.headD 0x00
    let status := (PumpStatus.ofCode code).getD .PUMP_NOT_PROGRAMMED
    let p2 := { p with left := { p.left with status := status } }
    ({ putAt p2 st1 with events := st1.events ++
        [{ addr := adr, side := some .left, status := some code }] }, none)
  else if dc = 0x02 ∧ 8 ≤ pl.length then
    let vol : ℚ := _bcd_to_float (pl.take 4) / 1000
    let amt : ℚ := _bcd_to_float ((pl.drop 4).take 4) / 100
    let p2 := { p with left := { p.left with volume_l := vol, amount_cur := amt } }
    ({ putAt p2 st1 with events := st1.events ++
        [{ addr := adr, side := some .left, volume_l := some vol, amount_cur := some amt }] },
     none)
  else if dc = 0x03 ∧ 4 ≤ pl.length then
    let nozio := pl.getD 3 0
    let nozzle_num := nozio &&& 0x0F
    let nozzle_out := nozio &&& 0x10 ≠ 0
    let price : ℚ := if (pl.take 3).length = 3 then _bcd_to_float (pl.take 3) / 100 else 0
    let nozzle_state : NozzleState :=
      { number := nozzle_num, taken := nozzle_out, selected := 0 < nozzle_num, price := price }
    let p2 := { p with all_nozzles := dictSet p.all_nozzles nozzle_num nozzle_state }
    let side2 := { p2.left with nozzle_taken := nozzle_out }
    let side3 :=
      if 0 < nozzle_num then
        { side2 with selected_nozzle := some nozzle_num,
                     nozzles := dictSet side2.nozzles nozzle_num nozzle_state }
      else side2
    let p3 := { p2 with left := side3 }
    ({ putAt p3 st1 with events := st1.events ++
        [{ addr := adr, side := some .left, nozzle_taken := some nozzle_out,
           nozzle_num := some nozzle_num, nozzle_price := some price,
           nozzle_selected := some (0 < nozzle_num) }] }, none)
  else if dc = 0x07 ∧ 50 ≤ pl.length then
    let grade_data := (pl.drop 35).take 15
    let p2 := { p with all_nozzles := headDc7Update p.all_nozzles grade_data }
    (putAt p2 st1, none)
  else (st1, none)

/-- HEAD `PumpMaster.get_all_nozzles`: a pure query that still performs
the `store[addr]` defaultdict read. -/
def get_all_nozzles (st : MasterState) (addr : Nat) :
    List (Nat × NozzleState) × MasterState :=
  let p := (storeGetItem st.storeF addr).1
  (p.all_nozzles, { st with storeF := (storeGetItem st.storeF addr).2 })

/-! ### Host-initiated actions (pumpmaster.py `authorize`, `_startup`,
`_init_price`; driver.py `cd1`) -/

/-- HEAD revision of `PumpMaster.authorize`: the blocks handed to
`hw.transact` — optional CD3 with `_float_to_bcd(vol * 1000, 4)`,
optional CD4 with `_float_to_bcd(amt * 100, 4)`, then `[CD1, 0x01, 0x06]`. -/
def authorize_head (vol amt : Option ℚ) : List (List Nat) :=
  (match vol with
   | some v => [[0x03, 0x04] ++ _float_to_bcd (v * 1000) 4]
   | none => []) ++
  (match amt with
   | some a => [[0x04, 0x04] ++ _float_to_bcd (a * 100) 4]
   | none => []) ++
  [[0x01, 0x01, 0x06]]

/-- c5b88ff revision of `PumpMaster.authorize`: optional CD3 with
`int(vol * 1000).to_bytes(4, "big")`, optional CD4 with
`int(amt * 100).to_bytes(4, "big")`, then `[CD1, 0x01, 0x01]`. -/
def authorize_c5b (vol amt : Option ℚ) : List (List Nat) :=
  (match vol with
   | some v => [[0x03, 0x04] ++ to_bytes_be (pyInt (v * 1000)).toNat 4]
   | none => []) ++
  (match amt with
   | some a => [[0x04, 0x04] ++ to_bytes_be (pyInt (a * 100)).toNat 4]
   | none => []) ++
  [[0x01, 0x01, 0x01]]

/-- One outgoing `hw.transact(addr, blocks, _)` call. -/
structure WireCmd where
  addr : Nat
  blocks : List (List Nat)
  deriving DecidableEq, Repr

/-- The single CD1 block `[0x01, 0x01, dcc]` built by `driver.cd1`. -/
def cd1_blocks (dcc : Nat) : List (List Nat) := [[0x01, 0x01, dcc]]

/-- `PumpMaster._init_price`: CD5 price-update frame
`[0x05, 12] ++ _int_to_bcd(4500, 3) * 4` followed by `cd1(pump_id, 0x05)`
(RESET), both to the given address. -/
def _init_price (addr : Nat) : List WireCmd :=
  let price_bcd := _int_to_bcd 4500 3
  let block := [0x05, 12] ++ (List.replicate 4 price_bcd).flatten
  [⟨addr, [block]⟩, ⟨addr, cd1_blocks 0x05⟩]

/-- `PumpMaster._startup`: per configured address, `_init_price` then
`hw.cd1(adr - 0x50, 0x06)` (the driver adds 0x50 back), as the ordered
list of outgoing transactions. -/
def _startup (addrs : List Nat) : List WireCmd :=
  (addrs.map (fun adr => _init_price adr ++ [⟨adr, cd1_blocks 0x06⟩])).flatten

/-! ### Concrete states used in the theorems below -/

/-- The initial `MasterState`: empty store, empty grade table, no events. -/
def st0 : MasterState := { storeF := fun _ => none, grade_table := fun _ => none, events := [] }

/-- A pump mid-filling on the left side: status `FILLING`, non-zero
volume and amount dispensed, a preset volume of 20 L loaded. -/
def pFill : PumpState :=
  { left := { status := .FILLING, volume_l := 1234, amount_cur := 567,
              preset_vol := some 20 } }

/-- A master state whose store maps address 0x50 to `pFill`. -/
def stFill : MasterState :=
  { storeF := fun a => if a = 0x50 then some pFill else none,
    grade_table := fun _ => none, events := [] }

/-! ## Claim theorems -/

/-- Evaluation helper: Python `int()` of a whole non-negative number. -/
theorem pyInt_natCast (n : ℕ) : pyInt (n : ℚ) = n := by
  simp [pyInt, Rat.floor_def', Rat.num_natCast, Rat.den_natCast]

/-- Claim C1 (code_bug evaluation): at `authorize(0x50, 20.0, None)` the
c5b88ff revision emits CD3 payload `00 00 4E 20` (big-endian 20000) but a
trailing CD1 block `01 01 01` (DCC 0x01, which `enums.PumpCmd` and the
driver's own command table name AUTHORIZE only for 0x06), while the HEAD
revision emits the trailing `01 01 06` but CD3 payload `00 02 00 00`
(packed BCD of 20000, not big-endian binary).  Neither revision produces
the claimed body `03 04 00 00 4E 20` followed by `01 01 06`. -/
theorem C1_authorize_divergence :
    authorize_c5b (some 20) none = [[0x03, 0x04, 0x00, 0x00, 0x4E, 0x20], [0x01, 0x01, 0x01]] ∧
    authorize_head (some 20) none = [[0x03, 0x04, 0x00, 0x02, 0x00, 0x00], [0x01, 0x01, 0x06]] := by
  have h20 : (20 * 1000 : ℚ) = ((20000 : ℕ) : ℚ) := by norm_num
  refine ⟨?_, ?_⟩
  · rw [authorize_c5b, h20, pyInt_natCast]
    decide
  · rw [authorize_head, _float_to_bcd, h20, pyInt_natCast]
    decide

/-- Claim C2 (code_bug evaluation): the startup sequence for address 0x50
sends (1) a CD5 frame whose twelve price bytes are `00 54 00` repeated —
the packed-BCD value 5400, not 4500, because `_int_to_bcd` swaps nibbles —
(2) CD1 RESET (0x05), and (3) CD1 with DCC 0x06, which is AUTHORIZE per
`enums.PumpCmd`, although the code comment says RETURN PUMP PARAMETERS
(0x02 per `enums.PumpCmd.RETURN_PUMP_PARAMS`). -/
theorem C2_startup_divergence :
    _startup [0x50] =
      [⟨0x50, [[0x05, 12, 0x00, 0x54, 0x00, 0x00, 0x54, 0x00, 0x00, 0x54, 0x00, 0x00, 0x54, 0x00]]⟩,
       ⟨0x50, [[0x01, 0x01, 0x05]]⟩,
       ⟨0x50, [[0x01, 0x01, 0x06]]⟩] := by decide

/-- Claim C3 (code_bug evaluation): `_int_to_bcd` places the units digit
in the high nibble and the tens digit in the low nibble, so 12 encodes as
`0x21` and the round trip through `_bcd_to_int` returns 21, not 12; the
startup price 4500 comes back as 5400. -/
theorem C3_bcd_divergence :
    _int_to_bcd 12 1 = [0x21] ∧
    _bcd_to_int (_int_to_bcd 12 1) = 21 ∧
    _bcd_to_int (_int_to_bcd 4500 3) = 5400 := by decide

/-- Claim C4 (counterexample): the frame built for address 0x50 with the
single well-formed block `01 01 02` — whose body contains the byte 0x02 —
is dispatched as no transactions at all: `_parse` splits the buffer on
every 0x02 byte, so the frame falls apart into fragments shorter than
eight bytes and is dropped, instead of yielding `(0x50, 0x01, [0x02])`. -/
theorem C4_counterexample :
    _parse (_build_frame 0x50 0x00 [[0x01, 0x01, 0x02]]) = [] ∧
    _parse (_build_frame 0x50 0x00 [[0x01, 0x01, 0x02]]) ≠
      [((0x50 : Nat), (0x01 : Nat), ([0x02] : List Nat))] := by decide

/-- Python split pulls a leading separator off as an empty chunk. -/
theorem pySplit_sep_cons (sep : Nat) (l : List Nat) :
    pySplit sep (sep :: l) = [] :: pySplit sep l := by
  simp [pySplit]

/-- Python split on a separator-free string returns the string whole. -/
theorem pySplit_no_sep (sep : Nat) (l : List Nat) (h : sep ∉ l) :
    pySplit sep l = [l] := by
  induction l with
  | nil => rfl
  | cons b rest ih =>
    have hb : b ≠ sep := fun e => h (e ▸ List.mem_cons_self b rest)
    have hr : sep ∉ rest := fun e => h (List.mem_cons_of_mem b e)
    simp only [pySplit, if_neg hb, ih hr]

/-- The last element of a list ending in a four-byte trailer. -/
theorem getLastD_append_four (l : List Nat) (a b c d e : Nat) :
    (l ++ [a, b, c, d]).getLastD e = d := by
  rw [show [a, b, c, d] = [a, b, c] ++ [d] from rfl, ← List.append_assoc,
    List.getLastD_concat]

/-- Splitting the transaction stream of well-formed concatenated blocks
recovers exactly those blocks, given enough fuel. -/
theorem splitTransGo_flatten (blocks : List (List Nat)) :
    ∀ fuel, (∀ bl ∈ blocks, ∃ dc pl, bl = dc :: pl.length :: pl) →
      blocks.flatten.length ≤ fuel →
      splitTransGo fuel blocks.flatten =
        blocks.map (fun bl => (bl.headD 0, bl.drop 2)) := by
  induction blocks with
  | nil =>
    intro fuel _ _
    cases fuel with
    | zero => rfl
    | succ f => rfl
  | cons bl rest ih =>
    intro fuel hwf hfuel
    obtain ⟨dc, pl, hbl⟩ := hwf bl (List.mem_cons_self bl rest)
    subst hbl
    rw [List.flatten_cons] at hfuel ⊢
    simp only [List.length_append, List.length_cons] at hfuel
    cases fuel with
    | zero => omega
    | succ f =>
      rw [List.cons_append, List.cons_append]
      simp only [splitTransGo]
      rw [if_neg (by simp)]
      rw [List.take_left, List.drop_left]
      rw [ih f (fun b hb => hwf b (List.mem_cons_of_mem _ hb)) (by omega)]
      simp

/-- A well-delimited frame chunk with a matching CRC parses into its
transactions: `parseChunk` applied to the bytes after the leading STX of
a built frame recovers the address and the body's transaction split. -/
theorem parseChunk_good (addr seq : Nat) (body : List Nat) (c : Nat)
    (hcrc : crc16 ([addr, 0xF0, seq, body.length] ++ body) = c) :
    parseChunk (([addr, 0xF0, seq, body.length] ++ body) ++
        [c % 256, c / 256, 0x03, 0xFA]) =
      (split_transactions body).map (fun t => (addr, t)) := by
  have hchunk :
      ([addr, 0xF0, seq, body.length] ++ body) ++ [c % 256, c / 256, 0x03, 0xFA] =
        addr :: 0xF0 :: seq :: body.length ::
          (body ++ [c % 256, c / 256, 0x03, 0xFA]) := by
    simp
  rw [hchunk]
  simp only [parseChunk]
  have hfrlen :
      (0x02 :: addr :: 0xF0 :: seq :: body.length ::
        (body ++ [c % 256, c / 256, 0x03, 0xFA])).length = body.length + 9 := by
    simp
  rw [hfrlen]
  rw [if_neg (by omega)]
  have hlast :
      (0x02 :: addr :: 0xF0 :: seq :: body.length ::
        (body ++ [c % 256, c / 256, 0x03, 0xFA])).getLastD 0 = 0xFA := by
    simp only [List.getLastD_cons]
    exact getLastD_append_four body _ _ _ _ _
  rw [hlast]
  rw [if_neg (by simp)]
  have hdrop1 :
      (0x02 :: addr :: 0xF0 :: seq :: body.length ::
        (body ++ [c % 256, c / 256, 0x03, 0xFA])).drop 1 =
        addr :: 0xF0 :: seq :: body.length ::
          (body ++ [c % 256, c / 256, 0x03, 0xFA]) := rfl
  rw [hdrop1]
  have htake :
      (addr :: 0xF0 :: seq :: body.length ::
        (body ++ [c % 256, c / 256, 0x03, 0xFA])).take (body.length + 9 - 5) =
        [addr, 0xF0, seq, body.length] ++ body := by
    have hsh : addr :: 0xF0 :: seq :: body.length ::
        (body ++ [c % 256, c / 256, 0x03, 0xFA]) =
        ([addr, 0xF0, seq, body.length] ++ body) ++ [c % 256, c / 256, 0x03, 0xFA] := by
      simp
    rw [hsh]
    exact List.take_left' (by simp)
  rw [htake, hcrc]
  have hsh2 : (0x02 :: addr :: 0xF0 :: seq :: body.length ::
      (body ++ [c % 256, c / 256, 0x03, 0xFA])) =
      ([0x02, addr, 0xF0, seq, body.length] ++ body) ++
        [c % 256, c / 256, 0x03, 0xFA] := by
    simp
  have hgetlo :
      (0x02 :: addr :: 0xF0 :: seq :: body.length ::
        (body ++ [c % 256, c / 256, 0x03, 0xFA])).getD (body.length + 9 - 4) 0 =
        c % 256 := by
    rw [hsh2, List.getD_append_right _ _ _ _ (by simp)]
    rw [show body.length + 9 - 4 - ([0x02, addr, 0xF0, seq, body.length] ++ body).length = 0
      from by simp]
    rfl
  have hgethi :
      (0x02 :: addr :: 0xF0 :: seq :: body.length ::
        (body ++ [c % 256, c / 256, 0x03, 0xFA])).getD (body.length + 9 - 3) 0 =
        c / 256 := by
    rw [hsh2, List.getD_append_right _ _ _ _ (by simp)]
    rw [show body.length + 9 - 3 - ([0x02, addr, 0xF0, seq, body.length] ++ body).length = 1
      from by simp]
    rfl
  rw [hgetlo, hgethi, Nat.mod_add_div]
  rw [if_neg (by omega)]
  simp only [List.getD_cons_succ, List.getD_cons_zero, List.drop_succ_cons,
    List.drop_zero, List.take_left]

/-- Claim C4 (amended theorem): the frame/parse round trip holds for every
address in [0x50, 0x6F], sequence bit, and list of well-formed transaction
blocks whose concatenation fits in the one-byte LEN field — provided no
byte of the frame after the leading STX equals 0x02: then `_parse` accepts
the frame and dispatches exactly the blocks `(dc, payload)` under the
frame's address.  (The parser compares the stored little-endian CRC and
never reads the sequence byte back, and when a 0x02 occurs in the frame
tail the c5b88ff `_parse` drops the frame — see the counterexample.) -/
theorem C4_frame_roundtrip (addr seq : Nat) (blocks : List (List Nat))
    (haddr : 0x50 ≤ addr ∧ addr ≤ 0x6F)
    (hwf : ∀ bl ∈ blocks, ∃ dc pl, bl = dc :: pl.length :: pl)
    (hlen : blocks.flatten.length ≤ 255)
    (hno2 : ∀ x ∈ (_build_frame addr seq blocks).tail, x ≠ 0x02) :
    _parse (_build_frame addr seq blocks) =
      blocks.map (fun bl => (addr, bl.headD 0, bl.drop 2)) := by
  have hframe : _build_frame addr seq blocks =
      0x02 :: (([addr, 0xF0, seq, blocks.flatten.length] ++ blocks.flatten) ++
        [crc16 ([addr, 0xF0, seq, blocks.flatten.length] ++ blocks.flatten) % 256,
         crc16 ([addr, 0xF0, seq, blocks.flatten.length] ++ blocks.flatten) / 256,
         0x03, 0xFA]) := by
    simp [_build_frame]
  rw [hframe] at hno2 ⊢
  have h2 : (0x02 : Nat) ∉
      ([addr, 0xF0, seq, blocks.flatten.length] ++ blocks.flatten) ++
        [crc16 ([addr, 0xF0, seq, blocks.flatten.length] ++ blocks.flatten) % 256,
         crc16 ([addr, 0xF0, seq, blocks.flatten.length] ++ blocks.flatten) / 256,
         0x03, 0xFA] := by
    intro hx
    exact hno2 _ (by simpa using hx) rfl
  simp only [_parse]
  rw [pySplit_sep_cons, pySplit_no_sep _ _ h2]
  simp only [List.map_cons, List.map_nil, List.flatten_cons, List.flatten_nil,
    List.append_nil]
  rw [show parseChunk ([] : List Nat) = [] from rfl, List.nil_append]
  rw [parseChunk_good addr seq blocks.flatten _ rfl]
  have hsplit : split_transactions blocks.flatten =
      blocks.map (fun bl => (bl.headD 0, bl.drop 2)) :=
    splitTransGo_flatten blocks blocks.flatten.length hwf (le_refl _)
  rw [hsplit, List.map_map]
  rfl

/-- Witness for C4: the amended round trip at address 0x50, sequence bit
0x00, single block `01 01 00` (CD1 RETURN_STATUS); the built frame
contains no 0x02 byte after the leading STX. -/
theorem C4_frame_roundtrip_witness :
    _parse (_build_frame 0x50 0x00 [[0x01, 0x01, 0x00]]) =
      [[0x01, 0x01, 0x00]].map (fun bl => ((0x50 : Nat), bl.headD 0, bl.drop 2)) :=
  C4_frame_roundtrip 0x50 0x00 [[0x01, 0x01, 0x00]] (by decide)
    (by
      intro bl hbl
      have hb : bl = [0x01, 0x01, 0x00] := by simpa using hbl
      subst hb
      exact ⟨0x01, [0x00], rfl⟩)
    (by decide) (by decide)

/-- Claim C5 (code_bug evaluation): a DC1 payload with the undocumented
status byte 0x09 makes the c5b88ff handler raise `ValueError` (the
`PumpStatus(code)` call; no event is emitted and no `Unknown` variant
exists), while the HEAD handler does not raise but stores
`PUMP_NOT_PROGRAMMED` — not an `Unknown(9)` variant — and still emits an
event carrying the raw code 9. -/
theorem C5_unknown_status :
    (_handle_dc_c5b st0 0x50 0x01 [0x09]).2 = some PyErr.valueError ∧
    (_handle_dc_c5b st0 0x50 0x01 [0x09]).1.events = [] ∧
    ((_handle_dc_head st0 0x50 0x01 [0x09]).1.storeF 0x50).map (fun p => p.left.status) =
      some PumpStatus.PUMP_NOT_PROGRAMMED ∧
    (_handle_dc_head st0 0x50 0x01 [0x09]).1.events =
      [{ addr := 0x50, side := some .left, status := some 0x09 }] ∧
    (_handle_dc_head st0 0x50 0x01 [0x09]).2 = none := by decide

/-- Claim C6 (counterexample): an 8-byte DC2 payload (the documented
layout, `00 00 12 34 / 00 00 05 67`) is dropped by the c5b88ff handler —
it requires at least 9 bytes — so no side is updated and no event is
emitted; the store keeps only the freshly inserted default `PumpState`. -/
theorem C6_counterexample :
    (_handle_dc_c5b st0 0x50 0x02 [0x00, 0x00, 0x12, 0x34, 0x00, 0x00, 0x05, 0x67]).1.events
        = [] ∧
    (_handle_dc_c5b st0 0x50 0x02 [0x00, 0x00, 0x12, 0x34, 0x00, 0x00, 0x05, 0x67]).2 = none ∧
    (_handle_dc_c5b st0 0x50 0x02 [0x00, 0x00, 0x12, 0x34, 0x00, 0x00, 0x05, 0x67]).1.storeF 0x50
        = some {} := by decide

/-- Claim C6 (amended theorem): in the c5b88ff revision a DC2 transaction
needs at least nine payload bytes; bit 0 of the first byte selects the
side (1 → right, 0 → left), `volume_l = bcd(payload[1..4]) / 1000` and
`amount_cur = bcd(payload[5..8]) / 100`; an `{addr, side, volume_l,
amount_cur}` event is emitted, the stored side fields are not modified
(only the defaultdict read of `store[addr]` happens), and the grade table
is untouched.  Eight-byte payloads are dropped — see the counterexample —
and no revision derives the side from the most recent DC3 event. -/
theorem C6_dc2_event (st : MasterState) (addr : Nat) (pl : List Nat)
    (h : 9 ≤ pl.length) :
    (_handle_dc_c5b st addr 0x02 pl).2 = none ∧
    (_handle_dc_c5b st addr 0x02 pl).1.events = st.events ++
      [{ addr := addr,
         side := some (if pl.getD 0 0 &&& 0x01 ≠ 0 then Side.right else Side.left),
         volume_l := some ((_bcd_to_int ((pl.drop 1).take 4) : ℚ) / 1000),
         amount_cur := some ((_bcd_to_int ((pl.drop 5).take 4) : ℚ) / 100) }] ∧
    (_handle_dc_c5b st addr 0x02 pl).1.storeF = (storeGetItem st.storeF addr).2 ∧
    (_handle_dc_c5b st addr 0x02 pl).1.grade_table = st.grade_table := by
  simp [_handle_dc_c5b, h]

/-- Witness for C6: the amended DC2 behaviour at a nine-byte payload whose
first byte has bit 0 set (side `right`). -/
theorem C6_dc2_event_witness :
    (_handle_dc_c5b st0 0x50 0x02
        [0x01, 0x00, 0x00, 0x12, 0x34, 0x00, 0x00, 0x05, 0x67]).2 = none ∧
    (_handle_dc_c5b st0 0x50 0x02
        [0x01, 0x00, 0x00, 0x12, 0x34, 0x00, 0x00, 0x05, 0x67]).1.events = st0.events ++
      [{ addr := 0x50,
         side := some (if ([0x01, 0x00, 0x00, 0x12, 0x34, 0x00, 0x00, 0x05, 0x67] :
             List Nat).getD 0 0 &&& 0x01 ≠ 0 then Side.right else Side.left),
         volume_l := some ((_bcd_to_int ((([0x01, 0x00, 0x00, 0x12, 0x34, 0x00, 0x00,
             0x05, 0x67] : List Nat).drop 1).take 4) : ℚ) / 1000),
         amount_cur := some ((_bcd_to_int ((([0x01, 0x00, 0x00, 0x12, 0x34, 0x00, 0x00,
             0x05, 0x67] : List Nat).drop 5).take 4) : ℚ) / 100) }] ∧
    (_handle_dc_c5b st0 0x50 0x02
        [0x01, 0x00, 0x00, 0x12, 0x34, 0x00, 0x00, 0x05, 0x67]).1.storeF =
      (storeGetItem st0.storeF 0x50).2 ∧
    (_handle_dc_c5b st0 0x50 0x02
        [0x01, 0x00, 0x00, 0x12, 0x34, 0x00, 0x00, 0x05, 0x67]).1.grade_table =
      st0.grade_table :=
  C6_dc2_event st0 0x50 [0x01, 0x00, 0x00, 0x12, 0x34, 0x00, 0x00, 0x05, 0x67] (by decide)

/-- Claim C7 (counterexample): a DC1 status 0x02 (AUTHORIZED) arriving
while pump 0x50 is FILLING with non-zero volume and amount dispensed
leaves `volume_l` and `amount_cur` at their old non-zero values — the
handler only assigns the status — contradicting the claimed reset to 0 on
the transition into AUTHORIZED. -/
theorem C7_counterexample :
    ((_handle_dc_c5b stFill 0x50 0x01 [0x02]).1.storeF 0x50).map
        (fun p => (p.left.status, p.left.volume_l, p.left.amount_cur, p.left.preset_vol)) =
      some (PumpStatus.AUTHORIZED, 1234, 567, some 20) ∧
    (1234 : ℚ) ≠ 0 := by decide

/-- Claim C7 (amended theorem): on a DC1 transaction with a known status
code the c5b88ff handler sets both sides' status to that code and changes
nothing else in the pump state — `volume_l`, `amount_cur`, `preset_vol`
and `preset_amt` all keep their previous values, so in particular they
are not cleared on a transition into AUTHORIZED — and emits an
`{addr, status}` event. -/
theorem C7_dc1_no_reset (st : MasterState) (addr code : Nat) (rest : List Nat)
    (s : PumpStatus) (h : PumpStatus.ofCode code = some s) :
    (_handle_dc_c5b st addr 0x01 (code :: rest)).2 = none ∧
    (_handle_dc_c5b st addr 0x01 (code :: rest)).1.storeF addr =
      some { (storeGetItem st.storeF addr).1 with
             left := { ((storeGetItem st.storeF addr).1).left with status := s },
             right := { ((storeGetItem st.storeF addr).1).right with status := s } } ∧
    (_handle_dc_c5b st addr 0x01 (code :: rest)).1.events =
      st.events ++ [{ addr := addr, status := some code }] := by
  simp [_handle_dc_c5b, h]

/-- Witness for C7: the amended DC1 behaviour at `stFill` (pump 0x50
FILLING with non-zero volume), status code 0x02 (AUTHORIZED). -/
theorem C7_dc1_no_reset_witness :
    (_handle_dc_c5b stFill 0x50 0x01 [0x02]).2 = none ∧
    (_handle_dc_c5b stFill 0x50 0x01 [0x02]).1.storeF 0x50 =
      some { (storeGetItem stFill.storeF 0x50).1 with
             left := { ((storeGetItem stFill.storeF 0x50).1).left with
                       status := PumpStatus.AUTHORIZED },
             right := { ((storeGetItem stFill.storeF 0x50).1).right with
                        status := PumpStatus.AUTHORIZED } } ∧
    (_handle_dc_c5b stFill 0x50 0x01 [0x02]).1.events =
      stFill.events ++ [{ addr := 0x50, status := some 0x02 }] :=
  C7_dc1_no_reset stFill 0x50 0x02 [] PumpStatus.AUTHORIZED rfl

/-- Every CRC shift step masks its result to 16 bits. -/
theorem crcRound_lt (c : Nat) : crcRound c < 65536 := by
  unfold crcRound
  split
  · exact Nat.lt_succ_of_le Nat.and_le_right
  · exact Nat.lt_succ_of_le Nat.and_le_right

/-- The CRC register is below 2^16 after any processed byte. -/
theorem crcByte_lt (c b : Nat) : crcByte c b < 65536 := by
  rw [crcByte, show (8 : ℕ) = 7 + 1 from rfl, Function.iterate_succ_apply']
  exact crcRound_lt _

/-- Folding `crcByte` keeps the register below 2^16. -/
theorem foldl_crcByte_lt (data : List Nat) :
    ∀ c, c < 65536 → data.foldl crcByte c < 65536 := by
  induction data with
  | nil => intro c h; exact h
  | cons b rest ih =>
    intro c _
    exact ih (crcByte c b) (crcByte_lt c b)

/-- The CRC of any byte string is a 16-bit value. -/
theorem crc16_lt (data : List Nat) : crc16 data < 65536 :=
  foldl_crcByte_lt data CRC_INIT (by norm_num [CRC_INIT])

/-- XORing a value with its own high byte shifted back into place clears
everything above the low byte. -/
theorem xor_div_shift (c : Nat) : c ^^^ ((c / 256) <<< 8) = c % 256 := by
  rw [show (256 : ℕ) = 2 ^ 8 from rfl, ← Nat.shiftRight_eq_div_pow]
  apply Nat.eq_of_testBit_eq
  intro i
  simp only [Nat.testBit_xor, Nat.testBit_shiftLeft, Nat.testBit_shiftRight,
    Nat.testBit_mod_two_pow]
  by_cases h8 : 8 ≤ i
  · have e : 8 + (i - 8) = i := by omega
    have h' : ¬i < 8 := by omega
    simp [ge_iff_le, h8, h', e]
  · have h' : i < 8 := by omega
    simp [ge_iff_le, h8, h']

/-- Below 0x8000 a CRC shift step is a plain doubling. -/
theorem crcRound_small (c : Nat) (h : c < 32768) : crcRound c = 2 * c := by
  have hbit : c &&& 0x8000 = 0 := by
    rw [show (0x8000 : ℕ) = 2 ^ 15 from rfl, Nat.and_two_pow,
        Nat.testBit_lt_two_pow (show c < 2 ^ 15 by omega)]
    rfl
  rw [crcRound, hbit]
  simp only [ne_eq, not_true_eq_false, if_false, if_neg (by omega : ¬(0 : ℕ) ≠ 0)]
  rw [Nat.shiftLeft_eq, show (0xFFFF : ℕ) = 2 ^ 16 - 1 from rfl,
      Nat.and_pow_two_sub_one_eq_mod]
  rw [Nat.mod_eq_of_lt (by omega : c * 2 ^ 1 < 2 ^ 16)]
  omega

/-- Iterating the shift step on a small value multiplies it by the
corresponding power of two. -/
theorem iterate_crcRound_small (k : Nat) :
    ∀ c, 2 ^ k * c < 65536 → crcRound^[k] c = 2 ^ k * c := by
  induction k with
  | zero => intro c _; simp
  | succ n ih =>
    intro c h
    have h2 : 2 ≤ 2 ^ (n + 1) := by
      calc (2 : ℕ) = 2 ^ 1 := rfl
        _ ≤ 2 ^ (n + 1) := Nat.pow_le_pow_right (by omega) (by omega)
    have hc : c < 32768 := by
      have := Nat.mul_le_mul_right c h2
      omega
    have e : 2 ^ n * (2 * c) = 2 ^ (n + 1) * c := by
      rw [pow_succ]
      ring
    rw [Function.iterate_succ_apply, crcRound_small c hc, ih (2 * c) (by omega), e]

/-- Claim C8 (amended theorem): appending the CRC to the data big-endian —
high byte first, the reverse of the little-endian order the wire format
stores — makes the CRC of the extended string vanish, for every byte
string. -/
theorem C8_crc_roundtrip_be (data : List Nat) :
    crc16 (data ++ [crc16 data / 256, crc16 data % 256]) = 0 := by
  have hlt : crc16 data < 65536 := crc16_lt data
  have hmod : crc16 data % 256 < 256 := Nat.mod_lt _ (by omega)
  have h1 : crc16 (data ++ [crc16 data / 256, crc16 data % 256]) =
      crcByte (crcByte (crc16 data) (crc16 data / 256)) (crc16 data % 256) := by
    simp only [crc16, List.foldl_append]
    rfl
  rw [h1]
  have h2 : crcByte (crc16 data) (crc16 data / 256) = 256 * (crc16 data % 256) := by
    rw [crcByte, xor_div_shift]
    have h8 : 2 ^ 8 * (crc16 data % 256) < 65536 := by omega
    have := iterate_crcRound_small 8 (crc16 data % 256) h8
    simpa using this
  rw [h2, crcByte]
  have h3 : 256 * (crc16 data % 256) ^^^ ((crc16 data % 256) <<< 8) = 0 := by
    rw [Nat.shiftLeft_eq, show (2 : ℕ) ^ 8 = 256 from rfl, Nat.mul_comm]
    exact Nat.xor_self _
  rw [h3]
  have := iterate_crcRound_small 8 0 (by norm_num)
  simpa using this

/-- Claim C8 (counterexample): for `data = [0x01]`, the CRC over
`data ++ crc_le(data)` — the 2-byte little-endian encoding the wire format
stores — is 0x10D6, not 0x0000. -/
theorem C8_counterexample :
    crc16 ([0x01] ++ [crc16 [0x01] % 256, crc16 [0x01] / 256]) = 0x10D6 ∧
    (0x10D6 : Nat) ≠ 0 := by decide

/-- A defaultdict read leaves an entry present at the read key and at
every previously present key. -/
theorem storeGetItem_isSome (s : Nat → Option PumpState) (a b : Nat)
    (h : b = a ∨ (s b).isSome) : ((storeGetItem s a).2 b).isSome := by
  cases hsa : s a with
  | some p =>
    simp only [storeGetItem, hsa]
    rcases h with rfl | hb
    · simp [hsa]
    · exact hb
  | none =>
    simp only [storeGetItem, hsa]
    rcases h with rfl | hb
    · simp
    · by_cases hba : b = a
      · simp [hba]
      · simp [hba, hb]

/-- A defaultdict read changes no entry other than the read key. -/
theorem storeGetItem_frame (s : Nat → Option PumpState) (a b : Nat) (h : b ≠ a) :
    (storeGetItem s a).2 b = s b := by
  cases hsa : s a with
  | some p => simp only [storeGetItem, hsa]
  | none =>
    simp only [storeGetItem, hsa]
    rw [if_neg h]

/-- The c5b88ff dispatch keeps the store entry of its own address present
and preserves every previously present entry, whatever the DC code,
payload, or raised exception. -/
theorem handle_c5b_storeF_isSome (st : MasterState) (addr dc : Nat) (pl : List Nat)
    (b : Nat) (h : b = addr ∨ (st.storeF b).isSome) :
    ((_handle_dc_c5b st addr dc pl).1.storeF b).isSome := by
  simp only [_handle_dc_c5b]
  split
  · exact storeGetItem_isSome _ _ _ h
  · split
    · exact storeGetItem_isSome _ _ _ h
    · split
      · exact storeGetItem_isSome _ _ _ h
      · split
        · split
          · exact storeGetItem_isSome _ _ _ h
          · by_cases hba : b = addr
            · simp [hba]
            · simp only [if_neg hba]
              exact storeGetItem_isSome _ _ _ h
        · exact storeGetItem_isSome _ _ _ h

/-- The HEAD dispatch keeps the store entry of its own address present and
preserves every previously present entry. -/
theorem handle_head_storeF_isSome (st : MasterState) (addr dc : Nat) (pl : List Nat)
    (b : Nat) (h : b = addr ∨ (st.storeF b).isSome) :
    ((_handle_dc_head st addr dc pl).1.storeF b).isSome := by
  simp only [_handle_dc_head]
  have hupd : ∀ p2 : PumpState,
      (if b = addr then some p2 else (storeGetItem st.storeF addr).2 b).isSome := by
    intro p2
    by_cases hba : b = addr
    · simp [hba]
    · simp only [if_neg hba]
      exact storeGetItem_isSome _ _ _ h
  split
  · exact hupd _
  · split
    · exact hupd _
    · split
      · exact hupd _
      · split
        · exact hupd _
        · exact storeGetItem_isSome _ _ _ h

/-- The c5b88ff dispatch touches no store or grade-table entry of another
address. -/
theorem handle_c5b_frame (st : MasterState) (addr dc : Nat) (pl : List Nat) (b : Nat)
    (h : b ≠ addr) :
    (_handle_dc_c5b st addr dc pl).1.storeF b = st.storeF b ∧
    (_handle_dc_c5b st addr dc pl).1.grade_table b = st.grade_table b := by
  simp only [_handle_dc_c5b]
  split
  · exact ⟨storeGetItem_frame _ _ _ h, by simp [h]⟩
  · split
    · exact ⟨storeGetItem_frame _ _ _ h, rfl⟩
    · split
      · exact ⟨storeGetItem_frame _ _ _ h, rfl⟩
      · split
        · split
          · exact ⟨storeGetItem_frame _ _ _ h, rfl⟩
          · refine ⟨?_, rfl⟩
            simp only [if_neg h]
            exact storeGetItem_frame _ _ _ h
        · exact ⟨storeGetItem_frame _ _ _ h, rfl⟩

/-- The HEAD dispatch touches no store or grade-table entry of another
address. -/
theorem handle_head_frame (st : MasterState) (addr dc : Nat) (pl : List Nat) (b : Nat)
    (h : b ≠ addr) :
    (_handle_dc_head st addr dc pl).1.storeF b = st.storeF b ∧
    (_handle_dc_head st addr dc pl).1.grade_table b = st.grade_table b := by
  simp only [_handle_dc_head]
  have hupd : ∀ p2 : PumpState,
      (if b = addr then some p2 else (storeGetItem st.storeF addr).2 b) = st.storeF b := by
    intro p2
    rw [if_neg h]
    exact storeGetItem_frame _ _ _ h
  split
  · exact ⟨hupd _, rfl⟩
  · split
    · exact ⟨hupd _, rfl⟩
    · split
      · exact ⟨hupd _, rfl⟩
      · split
        · exact ⟨hupd _, rfl⟩
        · exact ⟨storeGetItem_frame _ _ _ h, rfl⟩

/-- Claim C9 (theorem): every modelled access path to the pump state
store — the raw defaultdict read, the pure query `get_all_nozzles`, and
dispatch of a transaction with an arbitrary DC code and payload through
either `_handle_dc` revision — leaves the accessed address present in the
store and keeps every previously present entry, so the key set only
grows. -/
theorem C9_store_monotone (st : MasterState) (addr b dc : Nat) (pl : List Nat)
    (hb : (st.storeF b).isSome) :
    ((storeGetItem st.storeF addr).2 addr).isSome ∧
    ((storeGetItem st.storeF addr).2 b).isSome ∧
    ((get_all_nozzles st addr).2.storeF addr).isSome ∧
    ((get_all_nozzles st addr).2.storeF b).isSome ∧
    ((_handle_dc_c5b st addr dc pl).1.storeF addr).isSome ∧
    ((_handle_dc_c5b st addr dc pl).1.storeF b).isSome ∧
    ((_handle_dc_head st addr dc pl).1.storeF addr).isSome ∧
    ((_handle_dc_head st addr dc pl).1.storeF b).isSome :=
  ⟨storeGetItem_isSome _ _ _ (Or.inl rfl),
   storeGetItem_isSome _ _ _ (Or.inr hb),
   storeGetItem_isSome _ _ _ (Or.inl rfl),
   storeGetItem_isSome _ _ _ (Or.inr hb),
   handle_c5b_storeF_isSome _ _ _ _ _ (Or.inl rfl),
   handle_c5b_storeF_isSome _ _ _ _ _ (Or.inr hb),
   handle_head_storeF_isSome _ _ _ _ _ (Or.inl rfl),
   handle_head_storeF_isSome _ _ _ _ _ (Or.inr hb)⟩

/-- Witness for C9: reading the never-seen address 0x60 (query and
dispatch with an unknown DC code 0x09 and empty payload) inserts it, and
the existing entry 0x50 of `stFill` survives every access path. -/
theorem C9_store_monotone_witness :
    ((storeGetItem stFill.storeF 0x60).2 0x60).isSome ∧
    ((storeGetItem stFill.storeF 0x60).2 0x50).isSome ∧
    ((get_all_nozzles stFill 0x60).2.storeF 0x60).isSome ∧
    ((get_all_nozzles stFill 0x60).2.storeF 0x50).isSome ∧
    ((_handle_dc_c5b stFill 0x60 0x09 []).1.storeF 0x60).isSome ∧
    ((_handle_dc_c5b stFill 0x60 0x09 []).1.storeF 0x50).isSome ∧
    ((_handle_dc_head stFill 0x60 0x09 []).1.storeF 0x60).isSome ∧
    ((_handle_dc_head stFill 0x60 0x09 []).1.storeF 0x50).isSome :=
  C9_store_monotone stFill 0x60 0x50 0x09 [] (by decide)

/-- Claim C10 (theorem): dispatching any transaction attributed to one
address mutates at most that address's store entry and grade-table entry:
for every other address the store and grade table read back unchanged, in
both `_handle_dc` revisions. -/
theorem C10_frame_condition (st : MasterState) (addr dc B : Nat) (pl : List Nat)
    (h : B ≠ addr) :
    (_handle_dc_c5b st addr dc pl).1.storeF B = st.storeF B ∧
    (_handle_dc_c5b st addr dc pl).1.grade_table B = st.grade_table B ∧
    (_handle_dc_head st addr dc pl).1.storeF B = st.storeF B ∧
    (_handle_dc_head st addr dc pl).1.grade_table B = st.grade_table B :=
  ⟨(handle_c5b_frame st addr dc pl B h).1, (handle_c5b_frame st addr dc pl B h).2,
   (handle_head_frame st addr dc pl B h).1, (handle_head_frame st addr dc pl B h).2⟩

/-- Witness for C10: a DC1 AUTHORIZED transaction for pump 0x50 leaves
address 0x60 untouched in both revisions. -/
theorem C10_frame_condition_witness :
    (_handle_dc_c5b stFill 0x50 0x01 [0x02]).1.storeF 0x60 = stFill.storeF 0x60 ∧
    (_handle_dc_c5b stFill 0x50 0x01 [0x02]).1.grade_table 0x60 = stFill.grade_table 0x60 ∧
    (_handle_dc_head stFill 0x50 0x01 [0x02]).1.storeF 0x60 = stFill.storeF 0x60 ∧
    (_handle_dc_head stFill 0x50 0x01 [0x02]).1.grade_table 0x60 = stFill.grade_table 0x60 :=
  C10_frame_condition stFill 0x50 0x01 0x60 [0x02] (by decide)

end MasterFuel
